import Mathlib

/-!
Verification of the air-purifier ingestion pipeline (src/server.py).

The Python module is shallowly embedded: floating-point sensor values are
modelled as rationals, the JSON layer as an inductive value type, the
Postgres table as a list of rows, the Prometheus gauges/counter as record
fields, and each fallible external call (asyncpg connect / execute,
RabbitMQ iteration outcome) as an explicit oracle argument that says
whether the call succeeds or raises.
-/

namespace AirPurifier

/-- A JSON value, as produced by Python `json.loads`.  Object fields are
kept as an association list; `json.loads` keeps the last occurrence of a
duplicated key, which `lookupJson` below reproduces. -/
inductive JsonVal where
  | num (q : ℚ)
  | str (s : String)
  | bool (b : Bool)
  | null
  | obj (fields : List (String × JsonVal))
  | arr (elems : List JsonVal)

/-- A raw message body as delivered by the queue: either bytes that
`json.loads` fails to parse, or the parsed JSON value. -/
inductive Body where
  | malformed
  | json (v : JsonVal)

/-- Value of a nonempty all-digit character run, for the decimal parser
below. -/
def digitsVal (cs : List Char) : Option Nat :=
  if !cs.isEmpty && cs.all Char.isDigit then
    some (cs.foldl (fun n c => 10 * n + (c.toNat - 48)) 0)
  else none

/-- Split a character run at the dots. -/
def splitDot : List Char → List Char → List (List Char)
  | [], acc => [acc.reverse]
  | c :: cs, acc =>
    if c = '.' then acc.reverse :: splitDot cs []
    else splitDot cs (c :: acc)

/-- Unsigned decimal numeral: `D+`, `D+.D*` or `D*.D+`. -/
def pyFloatUnsigned (cs : List Char) : Option ℚ :=
  match splitDot cs [] with
  | [intPart] => (digitsVal intPart).map (fun n => (n : ℚ))
  | [intPart, fracPart] =>
    if intPart.isEmpty && fracPart.isEmpty then none
    else
      match (if intPart.isEmpty then some 0 else digitsVal intPart),
            (if fracPart.isEmpty then some 0 else digitsVal fracPart) with
      | some i, some f =>
        some ((i : ℚ) + (f : ℚ) / (10 : ℚ) ^ fracPart.length)
      | _, _ => none
  | _ => none

/-- Python's builtin `float` applied to a string, modelled on plain decimal
numerals with an optional sign (exponent, infinity and nan spellings are
not reached by any claim). -/
def pyFloatOfString (s : String) : Option ℚ :=
  match s.toList with
  | [] => none
  | c :: rest =>
    if c = '-' then (pyFloatUnsigned rest).map Neg.neg
    else if c = '+' then pyFloatUnsigned rest
    else pyFloatUnsigned (c :: rest)

/-- Python's builtin `float` applied to a decoded JSON value: numbers pass
through, numeric strings are parsed, booleans become `1.0`/`0.0`, and
`None`, lists and dicts raise (modelled as `none`). -/
def pyFloat : JsonVal → Option ℚ
  | JsonVal.num q => some q
  | JsonVal.str s => pyFloatOfString s
  | JsonVal.bool b => some (if b then 1 else 0)
  | JsonVal.null => none
  | JsonVal.obj _ => none
  | JsonVal.arr _ => none

/-- Dict lookup on the association list of a JSON object.  The last
occurrence of a key wins, matching Python's `json.loads` behaviour for
duplicate keys. -/
def lookupJson : List (String × JsonVal) → String → Option JsonVal
  | [], _ => none
  | (k, v) :: rest, key =>
    match lookupJson rest key with
    | some w => some w
    | none => if k = key then some v else none

/-- The decode side of the codec, from `callback` (src/server.py lines
66-71): `json.loads(body)` followed by
`float(data.get("co2", 0))`, `float(data.get("humidity", 0))`,
`float(data.get("temperature", 0))`.  A body that is not parseable JSON,
a JSON value that is not an object (no `.get` attribute), or a field
value that `float` rejects, all raise and are modelled as `none`. -/
def decode : Body → Option (ℚ × ℚ × ℚ)
  | Body.malformed => none
  | Body.json (JsonVal.obj fields) =>
    match pyFloat ((lookupJson fields "co2").getD (JsonVal.num 0)),
          pyFloat ((lookupJson fields "humidity").getD (JsonVal.num 0)),
          pyFloat ((lookupJson fields "temperature").getD (JsonVal.num 0)) with
    | some c, some h, some t => some (c, h, t)
    | _, _, _ => none
  | Body.json _ => none

/-- The encode side of the codec, from `receive_sensor_data` and
`generate_dummy_data` (src/server.py lines 121-125 and 157-161):
`json.dumps({"co2": co2, "humidity": humidity, "temperature": temperature})`. -/
def encode (co2 humidity temperature : ℚ) : Body :=
  Body.json (JsonVal.obj
    [("co2", JsonVal.num co2), ("humidity", JsonVal.num humidity),
     ("temperature", JsonVal.num temperature)])

/-- One row of the `sensor_data` table (src/server.py lines 43-46). -/
structure Reading where
  timestamp : ℕ
  co2_ppm : ℚ
  humidity_percent : ℚ
  temperature_celsius : ℚ
deriving DecidableEq

/-- Process-wide state: the three Prometheus gauges, the received counter
(src/server.py lines 19-22), the `sensor_data` table, and the wall clock
that `datetime.now()` reads. -/
structure SystemState where
  co2_gauge : ℚ
  humidity_gauge : ℚ
  temperature_gauge : ℚ
  data_received_counter : ℕ
  sensor_data : List Reading
  now : ℕ
deriving DecidableEq

/-- Oracle for one store interaction: `asyncpg.connect` may raise
(`connectFails`), `conn.execute`/`conn.fetchrow` may raise after a
successful connect (`executeFails`), or everything succeeds (`ok`). -/
inductive StoreBehavior where
  | ok
  | connectFails
  | executeFails
deriving DecidableEq

/-- Count of storage connections opened and explicitly closed during one
operation. -/
structure ConnLog where
  opened : ℕ
  closed : ℕ
deriving DecidableEq

/-- What the consumer tells the queue about a delivery. -/
inductive AckAction where
  | ack
  | nackNoRequeue
deriving DecidableEq

def initialState : SystemState :=
  { co2_gauge := 0, humidity_gauge := 0, temperature_gauge := 0,
    data_received_counter := 0, sensor_data := [], now := 0 }

/-- `process_sensor_data` (src/server.py lines 32-51).  The gauges are set
and the counter incremented first; then a connection is opened, the row
inserted with `datetime.now()` as timestamp, and the connection closed.
The whole body is inside `try/except Exception`, so a store failure is
printed and swallowed: the function always returns normally.  Note that
`conn.close()` is only reached when `conn.execute` succeeds. -/
def process_sensor_data (b : StoreBehavior) (co2 humidity temperature : ℚ)
    (s : SystemState) : SystemState × ConnLog :=
  let s1 := { s with co2_gauge := co2, humidity_gauge := humidity,
                     temperature_gauge := temperature,
                     data_received_counter := s.data_received_counter + 1 }
  match b with
  | StoreBehavior.connectFails => (s1, ⟨0, 0⟩)
  | StoreBehavior.executeFails => (s1, ⟨1, 0⟩)
  | StoreBehavior.ok =>
    ({ s1 with sensor_data := s1.sensor_data ++
        [{ timestamp := s.now, co2_ppm := co2, humidity_percent := humidity,
           temperature_celsius := temperature }] }, ⟨1, 1⟩)

/-- `callback` (src/server.py lines 66-80): decode the body, run
`process_sensor_data`, and `basic_ack`; any exception before the ack
(only decoding can raise, since `process_sensor_data` swallows its own)
is answered with `basic_nack(requeue=False)`. -/
def callback (b : StoreBehavior) (body : Body) (s : SystemState) :
    SystemState × AckAction × ConnLog :=
  match decode body with
  | none => (s, AckAction.nackNoRequeue, ⟨0, 0⟩)
  | some (c, h, t) =>
    let r := process_sensor_data b c h t s
    (r.1, AckAction.ack, r.2)

/-- The row selected by `SELECT * FROM sensor_data ORDER BY timestamp DESC
LIMIT 1` (src/server.py lines 192-196): a row of maximal timestamp, or
`none` on an empty table. -/
def latest : List Reading → Option Reading
  | [] => none
  | r :: rs =>
    match latest rs with
    | none => some r
    | some m => if r.timestamp ≤ m.timestamp then some m else some r

/-- `get_latest_data` (src/server.py lines 187-210): open a connection,
fetch the newest row, close the connection, return the row or a no-data
message (`some none`); a connect or query failure becomes an HTTP 500
(`none`).  As in `process_sensor_data`, `conn.close()` is only reached
when the query succeeds. -/
def get_latest_data (b : StoreBehavior) (s : SystemState) :
    Option (Option Reading) × ConnLog :=
  match b with
  | StoreBehavior.connectFails => (none, ⟨0, 0⟩)
  | StoreBehavior.executeFails => (none, ⟨1, 0⟩)
  | StoreBehavior.ok => (some (latest s.sensor_data), ⟨1, 1⟩)

/-- Outcome of one iteration of the consumer's `while True` body:
`pika.exceptions.AMQPConnectionError`, any other exception, or
`start_consuming` returning normally. -/
inductive IterOutcome where
  | amqpConnError
  | otherError
  | returned
deriving DecidableEq

/-- Externally visible action of the consumer loop. -/
inductive ConsumerAction where
  | connectAttempt
  | sleepSeconds (n : ℕ)
deriving DecidableEq

/-- `rabbitmq_consumer` (src/server.py lines 53-92) run against a finite
trace of iteration outcomes.  Every iteration re-enters the `try` block
and attempts to connect; both `except` branches print and
`time.sleep(5)`; the loop then continues unconditionally. -/
def rabbitmq_consumer : List IterOutcome → List ConsumerAction
  | [] => []
  | e :: es =>
    ConsumerAction.connectAttempt ::
      (match e with
       | IterOutcome.amqpConnError =>
         ConsumerAction.sleepSeconds 5 :: rabbitmq_consumer es
       | IterOutcome.otherError =>
         ConsumerAction.sleepSeconds 5 :: rabbitmq_consumer es
       | IterOutcome.returned => rabbitmq_consumer es)

/-! ## Helper lemmas -/

/-- A row strictly newer than every row already in the table is the one
`ORDER BY timestamp DESC LIMIT 1` selects after the append. -/
theorem latest_append_of_fresh (l : List Reading) (x : Reading)
    (hf : ∀ r ∈ l, r.timestamp < x.timestamp) :
    latest (l ++ [x]) = some x := by
  induction l with
  | nil => rfl
  | cons r rs ih =>
    have hr : r.timestamp < x.timestamp := hf r (List.mem_cons_self r rs)
    have ih2 : latest (rs.append [x]) = some x :=
      ih (fun a ha => hf a (List.mem_cons_of_mem r ha))
    simp only [List.cons_append, latest, ih2]
    rw [if_pos (le_of_lt hr)]

/-! ## Claims -/

/-- Claim C1, counterexample: with the store connection failing and a
well-formed body, `callback` acknowledges the message rather than
negative-acknowledging it for redelivery — `process_sensor_data` swallows
the store failure, so the claimed `RequeueOrRetry` outcome never reaches
the transport. -/
theorem store_failure_ack_counterexample :
    (callback StoreBehavior.connectFails (encode 550 45 22) initialState).2.1
        = AckAction.ack ∧
    AckAction.ack ≠ AckAction.nackNoRequeue :=
  ⟨rfl, by decide⟩

/-- Claim C1, amended: for every well-formed message, if the store append
fails (connect or execute), `callback` still sets the gauges to the
incoming values and leaves the store unchanged, but the failure is
swallowed inside the pipeline and the message is acknowledged, not
requeued. -/
theorem store_failure_updates_gauges_but_acks
    (b : StoreBehavior) (hb : b ≠ StoreBehavior.ok)
    (body : Body) (c h t : ℚ) (s : SystemState)
    (hdec : decode body = some (c, h, t)) :
    ((callback b body s).1.co2_gauge = c ∧
     (callback b body s).1.humidity_gauge = h ∧
     (callback b body s).1.temperature_gauge = t) ∧
    (callback b body s).2.1 = AckAction.ack ∧
    (callback b body s).1.sensor_data = s.sensor_data := by
  cases b with
  | ok => exact absurd rfl hb
  | connectFails => simp [callback, hdec, process_sensor_data]
  | executeFails => simp [callback, hdec, process_sensor_data]

/-- Claim C1, witness for the amended theorem at a concrete input. -/
theorem store_failure_updates_gauges_but_acks_witness :
    StoreBehavior.executeFails ≠ StoreBehavior.ok ∧
    decode (encode 550 45 22) = some (550, 45, 22) ∧
    (((callback StoreBehavior.executeFails (encode 550 45 22)
          initialState).1.co2_gauge = 550 ∧
      (callback StoreBehavior.executeFails (encode 550 45 22)
          initialState).1.humidity_gauge = 45 ∧
      (callback StoreBehavior.executeFails (encode 550 45 22)
          initialState).1.temperature_gauge = 22) ∧
     (callback StoreBehavior.executeFails (encode 550 45 22)
          initialState).2.1 = AckAction.ack ∧
     (callback StoreBehavior.executeFails (encode 550 45 22)
          initialState).1.sensor_data = initialState.sensor_data) :=
  ⟨by decide, rfl,
   store_failure_updates_gauges_but_acks StoreBehavior.executeFails (by decide)
     (encode 550 45 22) 550 45 22 initialState rfl⟩

/-- Claim C2: for every well-formed message, when the store is available,
`callback` acknowledges it, `latest` afterwards returns exactly that
reading (its three values stamped with the ingestion clock), and the
received counter increments by exactly one.  Freshness of the ingestion
clock relative to already-stored rows makes the new row the unique
newest one. -/
theorem handle_success_ack_latest_counter
    (body : Body) (c h t : ℚ) (s : SystemState)
    (hdec : decode body = some (c, h, t))
    (hfresh : ∀ r ∈ s.sensor_data, r.timestamp < s.now) :
    (callback StoreBehavior.ok body s).2.1 = AckAction.ack ∧
    (get_latest_data StoreBehavior.ok (callback StoreBehavior.ok body s).1).1 =
      some (some { timestamp := s.now, co2_ppm := c, humidity_percent := h,
                   temperature_celsius := t }) ∧
    (callback StoreBehavior.ok body s).1.data_received_counter =
      s.data_received_counter + 1 := by
  refine ⟨?_, ?_, ?_⟩
  · simp [callback, hdec, process_sensor_data]
  · simp only [callback, hdec, process_sensor_data, get_latest_data]
    rw [latest_append_of_fresh s.sensor_data _ hfresh]
  · simp [callback, hdec, process_sensor_data]

/-- Claim C2, witness at a concrete input. -/
theorem handle_success_ack_latest_counter_witness :
    decode (encode 550 45 22) = some (550, 45, 22) ∧
    (∀ r ∈ initialState.sensor_data, r.timestamp < initialState.now) ∧
    ((callback StoreBehavior.ok (encode 550 45 22) initialState).2.1 =
        AckAction.ack ∧
     (get_latest_data StoreBehavior.ok
        (callback StoreBehavior.ok (encode 550 45 22) initialState).1).1 =
       some (some { timestamp := initialState.now, co2_ppm := 550,
                    humidity_percent := 45, temperature_celsius := 22 }) ∧
     (callback StoreBehavior.ok (encode 550 45 22)
        initialState).1.data_received_counter =
       initialState.data_received_counter + 1) :=
  ⟨rfl, fun r hr => absurd hr (List.not_mem_nil r),
   handle_success_ack_latest_counter (encode 550 45 22) 550 45 22 initialState
     rfl (fun r hr => absurd hr (List.not_mem_nil r))⟩

/-- Claim C3: decoding an encoded reading yields the reading back. -/
theorem decode_encode_roundtrip (c h t : ℚ) :
    decode (encode c h t) = some (c, h, t) := rfl

/-- Claim C4: a non-decodable message is negative-acknowledged without
requeue, the whole state (gauges, counter, store) is unchanged, and no
storage connection is touched. -/
theorem malformed_message_no_effect
    (b : StoreBehavior) (body : Body) (s : SystemState)
    (hdec : decode body = none) :
    callback b body s = (s, AckAction.nackNoRequeue, ⟨0, 0⟩) := by
  simp [callback, hdec]

/-- Claim C4, witness: the bytes `"not json"` fail to parse. -/
theorem malformed_message_no_effect_witness :
    decode Body.malformed = none ∧
    callback StoreBehavior.ok Body.malformed initialState =
      (initialState, AckAction.nackNoRequeue, ⟨0, 0⟩) :=
  ⟨rfl, malformed_message_no_effect StoreBehavior.ok Body.malformed
    initialState rfl⟩

/-- Claim C5, counterexample: when `conn.execute` raises after a
successful connect, `process_sensor_data` opens a connection but never
closes it — `conn.close()` is not in a `finally`, so release is not
guaranteed on the failing exit path. -/
theorem store_connection_leak_counterexample :
    (process_sensor_data StoreBehavior.executeFails 550 45 22
        initialState).2.opened = 1 ∧
    (process_sensor_data StoreBehavior.executeFails 550 45 22
        initialState).2.closed = 0 :=
  ⟨rfl, rfl⟩

/-- Claim C5, amended: each Reading Store operation (`append` inside
`process_sensor_data` and `latest` inside `get_latest_data`) acquires its
own scoped connection, and releases it on the success path; when
connecting fails no connection exists, but when the query itself fails
after connecting the connection is not released. -/
theorem store_connection_scoping (c h t : ℚ) (s : SystemState) :
    ((process_sensor_data StoreBehavior.ok c h t s).2 = ⟨1, 1⟩ ∧
     (process_sensor_data StoreBehavior.connectFails c h t s).2 = ⟨0, 0⟩ ∧
     (process_sensor_data StoreBehavior.executeFails c h t s).2 = ⟨1, 0⟩) ∧
    ((get_latest_data StoreBehavior.ok s).2 = ⟨1, 1⟩ ∧
     (get_latest_data StoreBehavior.connectFails s).2 = ⟨0, 0⟩ ∧
     (get_latest_data StoreBehavior.executeFails s).2 = ⟨1, 0⟩) :=
  ⟨⟨rfl, rfl, rfl⟩, ⟨rfl, rfl, rfl⟩⟩

/-- Claim C6: the consumer loop never terminates on error — every
iteration of any trace attempts a connection (no retry cap), every sleep
it ever performs is exactly 5 seconds (fixed backoff, not exponential),
and an error iteration is followed by a 5-second sleep and then the next
connection attempt. -/
theorem consumer_fixed_backoff_no_cap (trace : List IterOutcome) :
    (rabbitmq_consumer trace).count ConsumerAction.connectAttempt =
      trace.length ∧
    (∀ n, ConsumerAction.sleepSeconds n ∈ rabbitmq_consumer trace → n = 5) ∧
    (∀ (e : IterOutcome) (es : List IterOutcome),
      e ≠ IterOutcome.returned →
      rabbitmq_consumer (e :: es) =
        ConsumerAction.connectAttempt :: ConsumerAction.sleepSeconds 5 ::
          rabbitmq_consumer es) := by
  refine ⟨?_, ?_, ?_⟩
  · induction trace with
    | nil => rfl
    | cons e es ih => cases e <;> simp [rabbitmq_consumer, ih]
  · intro n hn
    induction trace with
    | nil => simp [rabbitmq_consumer] at hn
    | cons e es ih =>
      cases e with
      | amqpConnError =>
        rcases (by simpa [rabbitmq_consumer] using hn : n = 5 ∨ _) with h5 | hm
        · exact h5
        · exact ih hm
      | otherError =>
        rcases (by simpa [rabbitmq_consumer] using hn : n = 5 ∨ _) with h5 | hm
        · exact h5
        · exact ih hm
      | returned =>
        exact ih (by simpa [rabbitmq_consumer] using hn)
  · intro e es he
    cases e with
    | amqpConnError => rfl
    | otherError => rfl
    | returned => exact absurd rfl he

/-- Claim C6, witness: a concrete two-error trace yields two connection
attempts, and the error head produces the 5-second sleep then reconnect
shape. -/
theorem consumer_fixed_backoff_no_cap_witness :
    (rabbitmq_consumer [IterOutcome.amqpConnError,
        IterOutcome.otherError]).count ConsumerAction.connectAttempt = 2 ∧
    rabbitmq_consumer [IterOutcome.amqpConnError] =
      ConsumerAction.connectAttempt :: ConsumerAction.sleepSeconds 5 ::
        rabbitmq_consumer [] :=
  ⟨(consumer_fixed_backoff_no_cap
      [IterOutcome.amqpConnError, IterOutcome.otherError]).1,
   (consumer_fixed_backoff_no_cap []).2.2 IterOutcome.amqpConnError []
     (by decide)⟩

/-- Claim C7: `decode` maps an object body to a `(co2, humidity,
temperature)` triple in which every key absent from the object defaults to
`0.0` and every present key's value is coerced with Python `float`. -/
theorem decode_defaults_and_coercion
    (fields : List (String × JsonVal)) (c h t : ℚ)
    (hdec : decode (Body.json (JsonVal.obj fields)) = some (c, h, t)) :
    ((lookupJson fields "co2" = none → c = 0) ∧
      ∀ v, lookupJson fields "co2" = some v → pyFloat v = some c) ∧
    ((lookupJson fields "humidity" = none → h = 0) ∧
      ∀ v, lookupJson fields "humidity" = some v → pyFloat v = some h) ∧
    ((lookupJson fields "temperature" = none → t = 0) ∧
      ∀ v, lookupJson fields "temperature" = some v → pyFloat v = some t) := by
  have key : pyFloat ((lookupJson fields "co2").getD (JsonVal.num 0)) = some c ∧
      pyFloat ((lookupJson fields "humidity").getD (JsonVal.num 0)) = some h ∧
      pyFloat ((lookupJson fields "temperature").getD (JsonVal.num 0)) =
        some t := by
    simp only [decode] at hdec
    rcases e1 : pyFloat ((lookupJson fields "co2").getD (JsonVal.num 0)) with
        _ | x1 <;>
      rcases e2 : pyFloat ((lookupJson fields "humidity").getD
          (JsonVal.num 0)) with _ | x2 <;>
      rcases e3 : pyFloat ((lookupJson fields "temperature").getD
          (JsonVal.num 0)) with _ | x3 <;>
      rw [e1, e2, e3] at hdec <;> simp_all
  refine ⟨⟨?_, ?_⟩, ⟨?_, ?_⟩, ⟨?_, ?_⟩⟩
  · intro hnone
    have := key.1
    rw [hnone] at this
    simpa [pyFloat] using this.symm
  · intro v hv
    have := key.1
    rwa [hv] at this
  · intro hnone
    have := key.2.1
    rw [hnone] at this
    simpa [pyFloat] using this.symm
  · intro v hv
    have := key.2.1
    rwa [hv] at this
  · intro hnone
    have := key.2.2
    rw [hnone] at this
    simpa [pyFloat] using this.symm
  · intro v hv
    have := key.2.2
    rwa [hv] at this

/-- Claim C7, witness: an object carrying only `humidity` decodes with the
two missing keys defaulted to `0.0`. -/
theorem decode_defaults_and_coercion_witness :
    decode (Body.json (JsonVal.obj [("humidity", JsonVal.num 45)])) =
      some (0, 45, 0) ∧
    (((lookupJson [("humidity", JsonVal.num 45)] "co2" = none → (0 : ℚ) = 0) ∧
      ∀ v, lookupJson [("humidity", JsonVal.num 45)] "co2" = some v →
        pyFloat v = some 0) ∧
     ((lookupJson [("humidity", JsonVal.num 45)] "humidity" = none →
        (45 : ℚ) = 0) ∧
      ∀ v, lookupJson [("humidity", JsonVal.num 45)] "humidity" = some v →
        pyFloat v = some 45) ∧
     ((lookupJson [("humidity", JsonVal.num 45)] "temperature" = none →
        (0 : ℚ) = 0) ∧
      ∀ v, lookupJson [("humidity", JsonVal.num 45)] "temperature" = some v →
        pyFloat v = some 0)) :=
  ⟨rfl, decode_defaults_and_coercion [("humidity", JsonVal.num 45)] 0 45 0 rfl⟩

/-- Claim C8: the persisted timestamp is the ingestion wall clock read
when the pipeline processes the message, and the stored timestamps do not
depend on the values carried by the message. -/
theorem timestamp_from_ingestion_clock (c h t : ℚ) (s : SystemState) :
    (process_sensor_data StoreBehavior.ok c h t s).1.sensor_data =
      s.sensor_data ++ [{ timestamp := s.now, co2_ppm := c,
                          humidity_percent := h,
                          temperature_celsius := t }] ∧
    ∀ c2 h2 t2 : ℚ,
      ((process_sensor_data StoreBehavior.ok c h t s).1.sensor_data.map
          Reading.timestamp) =
        ((process_sensor_data StoreBehavior.ok c2 h2 t2 s).1.sensor_data.map
          Reading.timestamp) := by
  refine ⟨rfl, ?_⟩
  intro c2 h2 t2
  simp [process_sensor_data]

/-- Claim C9: for every well-formed message the received counter is
incremented by exactly one whatever the store does afterwards — the
metrics update precedes the store write and the write failure is
caught. -/
theorem counter_counts_received_not_persisted
    (b : StoreBehavior) (body : Body) (c h t : ℚ) (s : SystemState)
    (hdec : decode body = some (c, h, t)) :
    (callback b body s).1.data_received_counter =
      s.data_received_counter + 1 := by
  cases b <;> simp [callback, hdec, process_sensor_data]

/-- Claim C9, witness: counter still increments when the store write
fails. -/
theorem counter_counts_received_not_persisted_witness :
    decode (encode 550 45 22) = some (550, 45, 22) ∧
    (callback StoreBehavior.executeFails (encode 550 45 22)
        initialState).1.data_received_counter =
      initialState.data_received_counter + 1 :=
  ⟨rfl, counter_counts_received_not_persisted StoreBehavior.executeFails
    (encode 550 45 22) 550 45 22 initialState rfl⟩

/-- Claim C10: `decode` accepts a numeric string (`"550"`) and a boolean
as field values, coercing them with Python `float`; and over all object
payloads, decoding succeeds exactly when each of the three looked-up
values is float-coercible. -/
theorem decode_accepts_float_coercible :
    decode (Body.json (JsonVal.obj
        [("co2", JsonVal.str "550"), ("humidity", JsonVal.bool true),
         ("temperature", JsonVal.num 22)])) = some (550, 1, 22) ∧
    ∀ fields : List (String × JsonVal),
      (decode (Body.json (JsonVal.obj fields)) ≠ none ↔
        (pyFloat ((lookupJson fields "co2").getD (JsonVal.num 0))).isSome ∧
        (pyFloat ((lookupJson fields "humidity").getD
            (JsonVal.num 0))).isSome ∧
        (pyFloat ((lookupJson fields "temperature").getD
            (JsonVal.num 0))).isSome) := by
  refine ⟨rfl, ?_⟩
  intro fields
  rcases e1 : pyFloat ((lookupJson fields "co2").getD (JsonVal.num 0)) with
      _ | x1 <;>
    rcases e2 : pyFloat ((lookupJson fields "humidity").getD
        (JsonVal.num 0)) with _ | x2 <;>
    rcases e3 : pyFloat ((lookupJson fields "temperature").getD
        (JsonVal.num 0)) with _ | x3 <;>
    simp [decode, e1, e2, e3]

end AirPurifier
